import Mathlib

/-!
Shallow embedding of `barrier.go` (kapacitor's BarrierNode subsystem).

Modelling conventions:
- Go `time.Time` is an integer number of nanoseconds since the epoch; the Go
  zero value `time.Time{}` is `0`.  Go `time.Duration` is an integer.
- Go `(edge.Message, error)` handler results: every handler in `barrier.go`
  returns a `nil` error, so a handler result is `state × Option Message`
  (`none` = the `nil, nil` branch, the message is dropped).  A Go panic or a
  permanently blocking channel operation is modelled as `Except.error`.
- The `stopC` channel of `idleBarrier` is modelled by the flag `stopClosed`
  (`close(stopC)` sets it; closing an already closed channel is a Go runtime
  panic).  The buffered `stopC chan bool` (capacity 1) of `periodicBarrier`
  is modelled by `taskAlive` (a running goroutine receives the value) and
  `stopBufFilled` (the buffer slot).
- `wg.Wait` in `Stop` blocks until the background goroutine has exited, so in
  the sequential state model a completed `Stop` implies `taskAlive = false`.
- The background goroutines `idleHandler` / `periodicEmitter` are modelled
  twice: sequentially, one loop iteration at a time (`idleHandlerIter`,
  `periodicEmitterIter`, with the wall clock and the sink outcome supplied by
  the environment), and as an interleaving transition system (`procStep`)
  for the Stop/goroutine synchronisation claims.
-/

namespace Kapacitor

/-- Go `time.Time` as nanoseconds since epoch; `time.Time{}` is `0`. -/
abbrev Time := Int

/-- Go `t.Before(u)` on `time.Time`. -/
def Time.before (t u : Time) : Bool := decide (t < u)

/-- `models.GroupID` is a string. -/
abbrev GroupID := String

/-- `edge.GroupInfo` restricted to the field `barrier.go` reads: the group id. -/
structure GroupInfo where
  id : GroupID
deriving DecidableEq, Repr

/-- `edge.PointMeta` restricted to the field `barrier.go` reads: `Name()`. -/
structure PointMeta where
  name : String
deriving DecidableEq, Repr

/-- `edge.PointMessage`: name and timestamp (`m.Time()`). -/
structure PointMessage where
  name : String
  time : Time
deriving DecidableEq, Repr

/-- `edge.BatchPointMessage`: name and timestamp (`m.Time()`). -/
structure BatchPointMessage where
  name : String
  time : Time
deriving DecidableEq, Repr

/-- `edge.BarrierMessage`: owning group and timestamp. -/
structure BarrierMessage where
  group : GroupInfo
  time : Time
deriving DecidableEq, Repr

/-- `edge.BeginBatchMessage` (payload opaque to `barrier.go`). -/
structure BeginBatchMessage where
  name : String
deriving DecidableEq, Repr

/-- `edge.EndBatchMessage` (payload opaque to `barrier.go`). -/
structure EndBatchMessage where
  name : String
deriving DecidableEq, Repr

/-- `edge.DeleteGroupMessage`: carries `GroupID()`. -/
structure DeleteGroupMessage where
  groupID : GroupID
deriving DecidableEq, Repr

/-- `edge.Message`, the union of the message kinds `barrier.go` handles. -/
inductive Message where
  | point (m : PointMessage)
  | batchPoint (m : BatchPointMessage)
  | barrier (m : BarrierMessage)
  | beginBatch (m : BeginBatchMessage)
  | endBatch (m : EndBatchMessage)
  | deleteGroup (m : DeleteGroupMessage)
deriving DecidableEq, Repr

/-- Go `time.Timer` as `barrier.go` uses it: whether it is armed and the
duration it was last (re)armed with. -/
structure GoTimer where
  active : Bool
  d : Int
deriving DecidableEq, Repr

/-- State of one `idleBarrier` instance (`barrier.go` lines 83-93).
`stopClosed` models `close(stopC)` having happened; `taskAlive` models the
`idleHandler` goroutine tracked by `wg`. -/
structure idleBarrier where
  name : String
  group : GroupInfo
  idle : Int
  lastT : Time
  timer : GoTimer
  stopClosed : Bool
  taskAlive : Bool
deriving DecidableEq, Repr

/-- `idleBarrier.Init`: stores the zero time into `lastT`, does `wg.Add(1)`
and starts the `idleHandler` goroutine. -/
def idleBarrier.Init (n : idleBarrier) : idleBarrier :=
  { n with lastT := 0, taskAlive := true }

/-- `newIdleBarrier`: builds the struct (timer armed with `idle`, `stopC`
fresh) and calls `Init`. -/
def newIdleBarrier (name : String) (group : GroupInfo) (idle : Int) : idleBarrier :=
  idleBarrier.Init
    { name := name, group := group, idle := idle, lastT := 0,
      timer := { active := true, d := idle }, stopClosed := false, taskAlive := false }

/-- `idleBarrier.resetTimer`: `timer.Reset(n.idle)`. -/
def idleBarrier.resetTimer (n : idleBarrier) : idleBarrier :=
  { n with timer := { active := true, d := n.idle } }

/-- `idleBarrier.Stop`: `close(stopC)` (panics if already closed), `timer.Stop()`,
then `wg.Wait()` which returns only once the goroutine has exited. -/
def idleBarrier.Stop (n : idleBarrier) : Except String idleBarrier :=
  if n.stopClosed then
    Except.error "close of closed channel"
  else
    Except.ok { n with stopClosed := true,
                       timer := { n.timer with active := false },
                       taskAlive := false }

/-- `idleBarrier.BeginBatch`: `return m, nil`. -/
def idleBarrier.BeginBatch (n : idleBarrier) (m : BeginBatchMessage) :
    idleBarrier × Option Message :=
  (n, some (Message.beginBatch m))

/-- `idleBarrier.BatchPoint`: forward (after `resetTimer`) unless
`m.Time().Before(lastT)`. -/
def idleBarrier.BatchPoint (n : idleBarrier) (m : BatchPointMessage) :
    idleBarrier × Option Message :=
  if !(Time.before m.time n.lastT) then
    (n.resetTimer, some (Message.batchPoint m))
  else
    (n, none)

/-- `idleBarrier.EndBatch`: `return m, nil`. -/
def idleBarrier.EndBatch (n : idleBarrier) (m : EndBatchMessage) :
    idleBarrier × Option Message :=
  (n, some (Message.endBatch m))

/-- `idleBarrier.Barrier` (pass-through of an inbound barrier): forward
(after `resetTimer`) unless `m.Time().Before(lastT)`. -/
def idleBarrier.Barrier (n : idleBarrier) (m : BarrierMessage) :
    idleBarrier × Option Message :=
  if !(Time.before m.time n.lastT) then
    (n.resetTimer, some (Message.barrier m))
  else
    (n, none)

/-- `idleBarrier.DeleteGroup`: `Stop` when the message's group id matches the
instance's own; the message is forwarded in both cases. -/
def idleBarrier.DeleteGroup (n : idleBarrier) (m : DeleteGroupMessage) :
    Except String (idleBarrier × Option Message) :=
  if m.groupID == n.group.id then
    (n.Stop).map fun n2 => (n2, some (Message.deleteGroup m))
  else
    Except.ok (n, some (Message.deleteGroup m))

/-- `idleBarrier.Point`: forward (after `resetTimer`) unless
`m.Time().Before(lastT)`. -/
def idleBarrier.Point (n : idleBarrier) (m : PointMessage) :
    idleBarrier × Option Message :=
  if !(Time.before m.time n.lastT) then
    (n.resetTimer, some (Message.point m))
  else
    (n, none)

/-- `idleBarrier.emitBarrier`: stores `time.Now()` (supplied as `nowT`) into
`lastT`, then forwards a new barrier message; the sink's outcome is supplied
by the environment and returned unchanged. -/
def idleBarrier.emitBarrier (n : idleBarrier) (nowT : Time)
    (sink : Except String Unit) : idleBarrier × Except String Unit :=
  ({ n with lastT := nowT }, sink)

/-- Outcome of the `select` in the background loops: the timer/ticker channel
fired (with the outcome the output sink will return for the emission), or the
stop signal was received. -/
inductive SelectResult where
  | timerFired (sink : Except String Unit)
  | stopSignal

/-- One iteration of `idleBarrier.idleHandler`: on timer fire, `emitBarrier()`
(its error result is discarded) then `resetTimer()`, and the loop continues
(`true`); on stop signal the goroutine returns (`false`). -/
def idleBarrier.idleHandlerIter (n : idleBarrier) (nowT : Time)
    (r : SelectResult) : idleBarrier × Bool :=
  match r with
  | SelectResult.timerFired sink =>
      ((n.emitBarrier nowT sink).1.resetTimer, true)
  | SelectResult.stopSignal => (n, false)

/-- State of one `periodicBarrier` instance (`barrier.go` lines 183-192).
`taskAlive` models the `periodicEmitter` goroutine; `stopBufFilled` the one
buffered slot of `stopC chan bool`. -/
structure periodicBarrier where
  name : String
  group : GroupInfo
  period : Int
  lastT : Time
  tickerActive : Bool
  taskAlive : Bool
  stopBufFilled : Bool
deriving DecidableEq, Repr

/-- `periodicBarrier.Init`: stores the zero time into `lastT`, `wg.Add(1)`,
starts the `periodicEmitter` goroutine. -/
def periodicBarrier.Init (n : periodicBarrier) : periodicBarrier :=
  { n with lastT := 0, taskAlive := true }

/-- `newPeriodicBarrier`: builds the struct (ticker running, `stopC` fresh)
and calls `Init`. -/
def newPeriodicBarrier (name : String) (group : GroupInfo) (period : Int) :
    periodicBarrier :=
  periodicBarrier.Init
    { name := name, group := group, period := period, lastT := 0,
      tickerActive := true, taskAlive := false, stopBufFilled := false }

/-- `periodicBarrier.Stop`: `stopC <- true` (received by a running goroutine,
else parked in the capacity-1 buffer, else blocks forever), `ticker.Stop()`,
`wg.Wait()`. -/
def periodicBarrier.Stop (n : periodicBarrier) : Except String periodicBarrier :=
  if n.taskAlive then
    Except.ok { n with taskAlive := false, tickerActive := false }
  else if !n.stopBufFilled then
    Except.ok { n with stopBufFilled := true, tickerActive := false }
  else
    Except.error "all goroutines are asleep - deadlock"

/-- `periodicBarrier.BeginBatch`: `return m, nil`. -/
def periodicBarrier.BeginBatch (n : periodicBarrier) (m : BeginBatchMessage) :
    periodicBarrier × Option Message :=
  (n, some (Message.beginBatch m))

/-- `periodicBarrier.BatchPoint`: forward unless `m.Time().Before(lastT)`;
the ticker is never touched. -/
def periodicBarrier.BatchPoint (n : periodicBarrier) (m : BatchPointMessage) :
    periodicBarrier × Option Message :=
  if !(Time.before m.time n.lastT) then
    (n, some (Message.batchPoint m))
  else
    (n, none)

/-- `periodicBarrier.EndBatch`: `return m, nil`. -/
def periodicBarrier.EndBatch (n : periodicBarrier) (m : EndBatchMessage) :
    periodicBarrier × Option Message :=
  (n, some (Message.endBatch m))

/-- `periodicBarrier.Barrier`: forward unless `m.Time().Before(lastT)`. -/
def periodicBarrier.Barrier (n : periodicBarrier) (m : BarrierMessage) :
    periodicBarrier × Option Message :=
  if !(Time.before m.time n.lastT) then
    (n, some (Message.barrier m))
  else
    (n, none)

/-- `periodicBarrier.DeleteGroup`: `Stop` when the message's group id matches
the instance's own; the message is forwarded in both cases. -/
def periodicBarrier.DeleteGroup (n : periodicBarrier) (m : DeleteGroupMessage) :
    Except String (periodicBarrier × Option Message) :=
  if m.groupID == n.group.id then
    (n.Stop).map fun n2 => (n2, some (Message.deleteGroup m))
  else
    Except.ok (n, some (Message.deleteGroup m))

/-- `periodicBarrier.Point`: forward unless `m.Time().Before(lastT)`. -/
def periodicBarrier.Point (n : periodicBarrier) (m : PointMessage) :
    periodicBarrier × Option Message :=
  if !(Time.before m.time n.lastT) then
    (n, some (Message.point m))
  else
    (n, none)

/-- `periodicBarrier.emitBarrier`: stores `time.Now()` (supplied as `nowT`)
into `lastT`, then forwards a new barrier message via the sink. -/
def periodicBarrier.emitBarrier (n : periodicBarrier) (nowT : Time)
    (sink : Except String Unit) : periodicBarrier × Except String Unit :=
  ({ n with lastT := nowT }, sink)

/-- One iteration of `periodicBarrier.periodicEmitter`: on ticker fire,
`emitBarrier()` (its error result is discarded) and the loop continues; no
re-arming, the ticker self-repeats. On stop signal the goroutine returns. -/
def periodicBarrier.periodicEmitterIter (n : periodicBarrier) (nowT : Time)
    (r : SelectResult) : periodicBarrier × Bool :=
  match r with
  | SelectResult.timerFired sink => ((n.emitBarrier nowT sink).1, true)
  | SelectResult.stopSignal => (n, false)

/-- The emitter built by `BarrierNode.newBarrier` together with its stop
closure: the closure is a method value on the same instance, so the variants
are modelled as a sum over the instance states. -/
inductive emitter where
  | idle (b : idleBarrier)
  | periodic (b : periodicBarrier)
deriving DecidableEq, Repr

/-- The stop closure registered in `barrierStopper`: `idleBarrier.Stop` or
`periodicBarrier.Stop` on the shared instance state. -/
def emitter.Stop : emitter → Except String emitter
  | emitter.idle b => b.Stop.map emitter.idle
  | emitter.periodic b => b.Stop.map emitter.periodic

/-- `DeleteGroup` dispatched on the emitter variant. -/
def emitter.DeleteGroup (e : emitter) (m : DeleteGroupMessage) :
    Except String (emitter × Option Message) :=
  match e with
  | emitter.idle b => (b.DeleteGroup m).map fun p => (emitter.idle p.1, p.2)
  | emitter.periodic b => (b.DeleteGroup m).map fun p => (emitter.periodic p.1, p.2)

/-- `pipeline.BarrierNode` restricted to the fields `barrier.go` reads: the
configured `Idle` and `Period` durations. -/
structure pipelineBarrierNode where
  idle : Int
  period : Int
deriving DecidableEq, Repr

/-- `BarrierNode` runtime state: the configuration and the `barrierStopper`
map from group id to the registered stop closure.  The closure closes over
the emitter's state, so the map entry aliases the live instance. -/
structure BarrierNode where
  b : pipelineBarrierNode
  barrierStopper : List (GroupID × emitter)
deriving DecidableEq, Repr

/-- `newBarrierNode`: rejects the configuration when both `Idle` and `Period`
are zero; otherwise the node starts with an empty `barrierStopper` map. -/
def newBarrierNode (n : pipelineBarrierNode) : Except String BarrierNode :=
  if n.idle == 0 && n.period == 0 then
    Except.error "barrier node must have either a non zero idle or a non zero period"
  else
    Except.ok { b := n, barrierStopper := [] }

/-- `BarrierNode.newBarrier`: builds an idle emitter when `Idle != 0`, else a
periodic emitter when `Period != 0`, else the unreachable error branch. -/
def BarrierNode.newBarrier (n : BarrierNode) (group : GroupInfo)
    (first : PointMeta) : Except String emitter :=
  if n.b.idle != 0 then
    Except.ok (emitter.idle (newIdleBarrier first.name group n.b.idle))
  else if n.b.period != 0 then
    Except.ok (emitter.periodic (newPeriodicBarrier first.name group n.b.period))
  else
    Except.error "unreachable code, barrier node should have non-zero idle or non-zero period"

/-- `BarrierNode.NewGroup`: builds the group's emitter via `newBarrier` and
registers its stop closure under the group id; returns the updated node state
and the receiver (the emitter). -/
def BarrierNode.NewGroup (n : BarrierNode) (group : GroupInfo)
    (first : PointMeta) : Except String (BarrierNode × emitter) :=
  (n.newBarrier group first).map fun e =>
    ({ n with barrierStopper := n.barrierStopper ++ [(group.id, e)] }, e)

/-- `BarrierNode.stopBarrierEmitter`: `for _, stopF := range n.barrierStopper
\x7b stopF() \x7d` — every registered stop closure is invoked, whether or not
the instance was already stopped (no entry is ever removed from the map); a
panic inside a closure propagates. -/
def BarrierNode.stopBarrierEmitter (n : BarrierNode) : Except String BarrierNode :=
  (List.foldlM
      (fun (acc : List (GroupID × emitter)) (ge : GroupID × emitter) =>
        (Prod.snd ge).Stop.map fun e2 => acc ++ [(Prod.fst ge, e2)])
      [] n.barrierStopper).map
    fun l => { n with barrierStopper := l }

/-- Delivery of a group-deletion message through the grouped consumer: it is
routed to the receiver of the message's group, i.e. the emitter handles it
(possibly calling its own `Stop`); the `barrierStopper` entry, which aliases
that same instance, observes the state change but is not removed. -/
def BarrierNode.deliverDeleteGroup (n : BarrierNode) (m : DeleteGroupMessage) :
    Except String BarrierNode :=
  (List.foldlM
      (fun (acc : List (GroupID × emitter)) (ge : GroupID × emitter) =>
        if Prod.fst ge == m.groupID then
          ((Prod.snd ge).DeleteGroup m).map fun p => acc ++ [(Prod.fst ge, p.1)]
        else
          Except.ok (acc ++ [ge]))
      [] n.barrierStopper).map
    fun l => { n with barrierStopper := l }

/-- Interleaving model of one emitter instance: the background goroutine
(`idleHandler` / `periodicEmitter`) running concurrently with a single
`Stop()` call.  `taskAlive`: the goroutine has not yet returned.
`stopRequested`: the stop signal has been sent (`close(stopC)` for the idle
variant, `stopC <- true` for the periodic one).  `stopReturned`: `Stop()`'s
`wg.Wait()` has completed and `Stop()` has returned. -/
structure emitterProc where
  taskAlive : Bool
  stopRequested : Bool
  stopReturned : Bool
deriving DecidableEq, Repr

/-- State right after `Init`: goroutine running, no stop signal yet. -/
def emitterProc.start : emitterProc :=
  { taskAlive := true, stopRequested := false, stopReturned := false }

/-- Events of the interleaving model. -/
inductive procEvent where
  | fire
  | recvStop
  | stopCall
  | stopRet
deriving DecidableEq, Repr

/-- Small-step interleaving semantics.
`fire`: the timer/ticker channel fires and the goroutine emits a barrier
(possible as long as the goroutine is alive — even after the stop signal was
sent, the `select` may pick the timer channel first).
`recvStop`: the goroutine's `select` receives the stop signal, the goroutine
returns and the deferred `wg.Done()` runs.
`stopCall`: `Stop()` sends the stop signal and stops the timer/ticker.
`stopRet`: `Stop()`'s `wg.Wait()` returns — only possible once the goroutine
has exited, which is exactly the `sync.WaitGroup` contract. -/
inductive procStep : emitterProc → procEvent → emitterProc → Prop
  | fire (s : emitterProc) : s.taskAlive = true → procStep s procEvent.fire s
  | recvStop (s : emitterProc) : s.taskAlive = true → s.stopRequested = true →
      procStep s procEvent.recvStop { s with taskAlive := false }
  | stopCall (s : emitterProc) : s.stopRequested = false →
      procStep s procEvent.stopCall { s with stopRequested := true }
  | stopRet (s : emitterProc) : s.stopRequested = true → s.taskAlive = false →
      procStep s procEvent.stopRet { s with stopReturned := true }

/-- States reachable from `emitterProc.start`. -/
inductive procReach : emitterProc → Prop
  | start : procReach emitterProc.start
  | step (s : emitterProc) (e : procEvent) (s2 : emitterProc) :
      procReach s → procStep s e s2 → procReach s2

/-- Environment events an emitter instance experiences, for tracking the
`lastT` invariants: the wall clock advances (`tick`, with `d ≥ 0` in valid
runs), a message is delivered to a handler, or the background task's
timer/ticker fires and it runs `emitBarrier` at the current wall-clock time. -/
inductive worldEvent where
  | tick (d : Int)
  | point (m : PointMessage)
  | batchPoint (m : BatchPointMessage)
  | barrierMsg (m : BarrierMessage)
  | beginBatch (m : BeginBatchMessage)
  | endBatch (m : EndBatchMessage)
  | timerFire (sink : Except String Unit)

/-- The barrier-emission action is the only `worldEvent` that runs
`emitBarrier`. -/
def worldEvent.isEmission : worldEvent → Bool
  | worldEvent.timerFire _ => true
  | _ => false

/-- A `tick` must advance the wall clock by a non-negative amount; every
other event is unconstrained. -/
def worldEvent.wellTimed : worldEvent → Prop
  | worldEvent.tick d => 0 ≤ d
  | _ => True

instance (e : worldEvent) : Decidable e.wellTimed := by
  cases e <;> unfold worldEvent.wellTimed <;> infer_instance

/-- An `idleBarrier` instance together with the wall clock (`time.Now()`). -/
structure idleWorld where
  clock : Time
  em : idleBarrier
deriving DecidableEq, Repr

/-- One environment step of an `idleBarrier` instance: handlers run as in
`barrier.go`; `timerFire` is one `idleHandler` iteration whose `emitBarrier`
reads the current wall clock. -/
def idleWorld.step (w : idleWorld) : worldEvent → idleWorld
  | worldEvent.tick d => { w with clock := w.clock + d }
  | worldEvent.point m => { w with em := (w.em.Point m).1 }
  | worldEvent.batchPoint m => { w with em := (w.em.BatchPoint m).1 }
  | worldEvent.barrierMsg m => { w with em := (w.em.Barrier m).1 }
  | worldEvent.beginBatch m => { w with em := (w.em.BeginBatch m).1 }
  | worldEvent.endBatch m => { w with em := (w.em.EndBatch m).1 }
  | worldEvent.timerFire sink =>
      { w with em := (w.em.idleHandlerIter w.clock (SelectResult.timerFired sink)).1 }

/-- Clock invariant of an idle instance: `lastT` is at or after the zero
time and never ahead of the wall clock. -/
def idleWorld.inv (w : idleWorld) : Prop :=
  0 ≤ w.em.lastT ∧ w.em.lastT ≤ w.clock

instance (w : idleWorld) : Decidable w.inv := by
  unfold idleWorld.inv; infer_instance

/-- A `periodicBarrier` instance together with the wall clock. -/
structure periodicWorld where
  clock : Time
  em : periodicBarrier
deriving DecidableEq, Repr

/-- One environment step of a `periodicBarrier` instance; `timerFire` is one
`periodicEmitter` iteration at the current wall clock. -/
def periodicWorld.step (w : periodicWorld) : worldEvent → periodicWorld
  | worldEvent.tick d => { w with clock := w.clock + d }
  | worldEvent.point m => { w with em := (w.em.Point m).1 }
  | worldEvent.batchPoint m => { w with em := (w.em.BatchPoint m).1 }
  | worldEvent.barrierMsg m => { w with em := (w.em.Barrier m).1 }
  | worldEvent.beginBatch m => { w with em := (w.em.BeginBatch m).1 }
  | worldEvent.endBatch m => { w with em := (w.em.EndBatch m).1 }
  | worldEvent.timerFire sink =>
      { w with em := (w.em.periodicEmitterIter w.clock (SelectResult.timerFired sink)).1 }

/-- Clock invariant of a periodic instance. -/
def periodicWorld.inv (w : periodicWorld) : Prop :=
  0 ≤ w.em.lastT ∧ w.em.lastT ≤ w.clock

instance (w : periodicWorld) : Decidable w.inv := by
  unfold periodicWorld.inv; infer_instance

/-- C1: for every emitter instance (idle or periodic) and every point,
batch-point, or barrier-passthrough message: a message whose timestamp is
strictly earlier than the instance's current last-barrier timestamp is
dropped (the handler returns nothing), and a message whose timestamp is at
or after it is forwarded unchanged. -/
theorem barrier_C1 :
    ∀ (ni : idleBarrier) (np : periodicBarrier) (mp : PointMessage)
      (mb : BatchPointMessage) (mr : BarrierMessage),
      ((mp.time < ni.lastT → (ni.Point mp).2 = none) ∧
        (ni.lastT ≤ mp.time → (ni.Point mp).2 = some (Message.point mp))) ∧
      ((mb.time < ni.lastT → (ni.BatchPoint mb).2 = none) ∧
        (ni.lastT ≤ mb.time → (ni.BatchPoint mb).2 = some (Message.batchPoint mb))) ∧
      ((mr.time < ni.lastT → (ni.Barrier mr).2 = none) ∧
        (ni.lastT ≤ mr.time → (ni.Barrier mr).2 = some (Message.barrier mr))) ∧
      ((mp.time < np.lastT → (np.Point mp).2 = none) ∧
        (np.lastT ≤ mp.time → (np.Point mp).2 = some (Message.point mp))) ∧
      ((mb.time < np.lastT → (np.BatchPoint mb).2 = none) ∧
        (np.lastT ≤ mb.time → (np.BatchPoint mb).2 = some (Message.batchPoint mb))) ∧
      ((mr.time < np.lastT → (np.Barrier mr).2 = none) ∧
        (np.lastT ≤ mr.time → (np.Barrier mr).2 = some (Message.barrier mr))) := by
  intro ni np mp mb mr
  refine ⟨⟨?_, ?_⟩, ⟨?_, ?_⟩, ⟨?_, ?_⟩, ⟨?_, ?_⟩, ⟨?_, ?_⟩, ⟨?_, ?_⟩⟩ <;> intro h
  · simp [idleBarrier.Point, Time.before, h]
  · simp [idleBarrier.Point, Time.before, not_lt.mpr h]
  · simp [idleBarrier.BatchPoint, Time.before, h]
  · simp [idleBarrier.BatchPoint, Time.before, not_lt.mpr h]
  · simp [idleBarrier.Barrier, Time.before, h]
  · simp [idleBarrier.Barrier, Time.before, not_lt.mpr h]
  · simp [periodicBarrier.Point, Time.before, h]
  · simp [periodicBarrier.Point, Time.before, not_lt.mpr h]
  · simp [periodicBarrier.BatchPoint, Time.before, h]
  · simp [periodicBarrier.BatchPoint, Time.before, not_lt.mpr h]
  · simp [periodicBarrier.Barrier, Time.before, h]
  · simp [periodicBarrier.Barrier, Time.before, not_lt.mpr h]

/-- Witness for C1 at a concrete instance with last-barrier timestamp 10:
a point at time 4 is dropped and a point at time 12 is forwarded. -/
theorem barrier_C1_witness :
    (((newIdleBarrier "m" { id := "g" } 5).emitBarrier 10 (Except.ok ())).1.Point
        { name := "m", time := 4 }).2 = none ∧
    (((newIdleBarrier "m" { id := "g" } 5).emitBarrier 10 (Except.ok ())).1.Point
        { name := "m", time := 12 }).2 =
      some (Message.point { name := "m", time := 12 }) := by
  constructor
  · exact (barrier_C1 ((newIdleBarrier "m" { id := "g" } 5).emitBarrier 10 (Except.ok ())).1
      (newPeriodicBarrier "m" { id := "g" } 5) { name := "m", time := 4 }
      { name := "b", time := 0 } { group := { id := "g" }, time := 0 }).1.1 (by decide)
  · exact (barrier_C1 ((newIdleBarrier "m" { id := "g" } 5).emitBarrier 10 (Except.ok ())).1
      (newPeriodicBarrier "m" { id := "g" } 5) { name := "m", time := 12 }
      { name := "b", time := 0 } { group := { id := "g" }, time := 0 }).1.2 (by decide)

/-- C9: for every emitter instance, begin-batch and end-batch messages are
forwarded unchanged with the instance state (timer included) left entirely
untouched, regardless of the last-barrier timestamp. -/
theorem barrier_C9 :
    ∀ (ni : idleBarrier) (np : periodicBarrier) (mb : BeginBatchMessage)
      (me : EndBatchMessage),
      ni.BeginBatch mb = (ni, some (Message.beginBatch mb)) ∧
      ni.EndBatch me = (ni, some (Message.endBatch me)) ∧
      np.BeginBatch mb = (np, some (Message.beginBatch mb)) ∧
      np.EndBatch me = (np, some (Message.endBatch me)) := by
  intro ni np mb me
  exact ⟨rfl, rfl, rfl, rfl⟩

/-- C8: a forwarding failure from the output sink during a background
emission is discarded: the loop iteration still reports the task as
continuing, the emission still records the wall-clock time into the
last-barrier timestamp, and the next timer/ticker firing attempts the
emission again. -/
theorem barrier_C8 :
    ∀ (ni : idleBarrier) (np : periodicBarrier) (t t2 : Time) (err : String)
      (o : Except String Unit),
      ((ni.idleHandlerIter t (SelectResult.timerFired (Except.error err))).2 = true) ∧
      ((ni.idleHandlerIter t (SelectResult.timerFired (Except.error err))).1.lastT = t) ∧
      (((ni.idleHandlerIter t (SelectResult.timerFired (Except.error err))).1.idleHandlerIter
          t2 (SelectResult.timerFired o)).2 = true) ∧
      (((ni.idleHandlerIter t (SelectResult.timerFired (Except.error err))).1.idleHandlerIter
          t2 (SelectResult.timerFired o)).1.lastT = t2) ∧
      ((np.periodicEmitterIter t (SelectResult.timerFired (Except.error err))).2 = true) ∧
      ((np.periodicEmitterIter t (SelectResult.timerFired (Except.error err))).1.lastT = t) ∧
      (((np.periodicEmitterIter t (SelectResult.timerFired (Except.error err))).1.periodicEmitterIter
          t2 (SelectResult.timerFired o)).2 = true) ∧
      (((np.periodicEmitterIter t (SelectResult.timerFired (Except.error err))).1.periodicEmitterIter
          t2 (SelectResult.timerFired o)).1.lastT = t2) := by
  intro ni np t t2 err o
  exact ⟨rfl, rfl, rfl, rfl, rfl, rfl, rfl, rfl⟩

/-- C4: node construction fails (with the configuration error, before any
emitter exists) exactly when both the idle duration and the period are zero;
with a non-zero idle duration and zero period it succeeds, starts with no
registered emitter, and `newBarrier` builds an idle emitter for every group. -/
theorem barrier_C4 :
    ∀ cfg : pipelineBarrierNode,
      ((∃ e, newBarrierNode cfg = Except.error e) ↔ (cfg.idle = 0 ∧ cfg.period = 0)) ∧
      (cfg.idle ≠ 0 → cfg.period = 0 →
        newBarrierNode cfg = Except.ok { b := cfg, barrierStopper := [] } ∧
        ∀ (g : GroupInfo) (f : PointMeta),
          BarrierNode.newBarrier { b := cfg, barrierStopper := [] } g f =
            Except.ok (emitter.idle (newIdleBarrier f.name g cfg.idle))) := by
  intro cfg
  constructor
  · rcases eq_or_ne cfg.idle 0 with h1 | h1 <;>
      rcases eq_or_ne cfg.period 0 with h2 | h2 <;>
      simp [newBarrierNode, h1, h2]
  · intro h1 _h2
    refine ⟨by simp [newBarrierNode, h1], ?_⟩
    intro g f
    simp [BarrierNode.newBarrier, h1]

/-- Witness for C4 at the spec's concrete configurations: idle 0 / period 0
is rejected, and idle 5s / period 0 is accepted with idle emitters. -/
theorem barrier_C4_witness :
    ((∃ e, newBarrierNode { idle := 0, period := 0 } = Except.error e) ↔
      ((0 : Int) = 0 ∧ (0 : Int) = 0)) ∧
    (newBarrierNode { idle := 5000000000, period := 0 } =
        Except.ok { b := { idle := 5000000000, period := 0 }, barrierStopper := [] } ∧
      BarrierNode.newBarrier
          { b := { idle := 5000000000, period := 0 }, barrierStopper := [] }
          { id := "g" } { name := "cpu" } =
        Except.ok (emitter.idle (newIdleBarrier "cpu" { id := "g" } 5000000000))) := by
  constructor
  · exact (barrier_C4 { idle := 0, period := 0 }).1
  · refine ⟨((barrier_C4 { idle := 5000000000, period := 0 }).2 (by decide) rfl).1, ?_⟩
    exact ((barrier_C4 { idle := 5000000000, period := 0 }).2 (by decide) rfl).2
      { id := "g" } { name := "cpu" }

/-- C5: on a successfully constructed node whose idle duration and period are
both non-zero, every new group gets an idle emitter (registered under the
group id by `NewGroup`); the period is ignored. -/
theorem barrier_C5 :
    ∀ (cfg : pipelineBarrierNode) (node : BarrierNode),
      cfg.idle ≠ 0 → cfg.period ≠ 0 → newBarrierNode cfg = Except.ok node →
      ∀ (g : GroupInfo) (f : PointMeta),
        node.newBarrier g f =
          Except.ok (emitter.idle (newIdleBarrier f.name g cfg.idle)) ∧
        node.NewGroup g f =
          Except.ok
            (Prod.mk
              { b := cfg, barrierStopper := [(g.id, emitter.idle (newIdleBarrier f.name g cfg.idle))] }
              (emitter.idle (newIdleBarrier f.name g cfg.idle))) := by
  intro cfg node h1 _h2 hok g f
  rw [newBarrierNode] at hok
  simp [h1] at hok
  subst hok
  constructor
  · simp [BarrierNode.newBarrier, h1]
  · simp [BarrierNode.NewGroup, BarrierNode.newBarrier, h1, Except.map]

/-- Witness for C5 at a node configured with idle 5 and period 7: the group
still gets an idle emitter. -/
theorem barrier_C5_witness :
    BarrierNode.newBarrier { b := { idle := 5, period := 7 }, barrierStopper := [] }
        { id := "g" } { name := "cpu" } =
      Except.ok (emitter.idle (newIdleBarrier "cpu" { id := "g" } 5)) :=
  (barrier_C5 { idle := 5, period := 7 }
    { b := { idle := 5, period := 7 }, barrierStopper := [] }
    (by decide) (by decide) rfl { id := "g" } { name := "cpu" }).1

/-- C10: on every successfully constructed node, `NewGroup` never returns an
error — the `unreachable code` branch of `newBarrier` is indeed unreachable
under the constructor's validation. -/
theorem barrier_C10 :
    ∀ (cfg : pipelineBarrierNode) (node : BarrierNode),
      newBarrierNode cfg = Except.ok node →
      ∀ (g : GroupInfo) (f : PointMeta), ∃ r, node.NewGroup g f = Except.ok r := by
  intro cfg node hok g f
  rw [newBarrierNode] at hok
  by_cases hc : cfg.idle == 0 && cfg.period == 0
  · simp [hc] at hok
  · simp [hc] at hok
    subst hok
    cases hnb : BarrierNode.newBarrier { b := cfg, barrierStopper := [] } g f with
    | ok e =>
        exact ⟨({ b := cfg, barrierStopper := [(g.id, e)] }, e), by
          simp [BarrierNode.NewGroup, hnb, Except.map]⟩
    | error msg =>
        exfalso
        rw [BarrierNode.newBarrier] at hnb
        by_cases hi : cfg.idle = 0
        · by_cases hp : cfg.period = 0
          · simp [hi, hp] at hc
          · simp [hi, hp] at hnb
        · simp [hi] at hnb

/-- Witness for C10: a freshly constructed periodic-only node accepts a new
group without error. -/
theorem barrier_C10_witness :
    ∃ r, BarrierNode.NewGroup { b := { idle := 0, period := 9 }, barrierStopper := [] }
      { id := "g" } { name := "cpu" } = Except.ok r :=
  barrier_C10 { idle := 0, period := 9 }
    { b := { idle := 0, period := 9 }, barrierStopper := [] } rfl
    { id := "g" } { name := "cpu" }

/-- C7: a group-deletion message stops exactly the emitter whose group id it
carries (via that emitter's own `Stop`, so it ends stopped); an emitter with
a different group id is left entirely unchanged; in both cases the deletion
message is forwarded. -/
theorem barrier_C7 :
    ∀ (ni : idleBarrier) (np : periodicBarrier) (m : DeleteGroupMessage),
      (ni.stopClosed = false →
        (m.groupID = ni.group.id →
          ∃ ni2, ni.DeleteGroup m = Except.ok (ni2, some (Message.deleteGroup m)) ∧
            ni2.taskAlive = false ∧ ni.Stop = Except.ok ni2) ∧
        (m.groupID ≠ ni.group.id →
          ni.DeleteGroup m = Except.ok (ni, some (Message.deleteGroup m)))) ∧
      (np.taskAlive = true →
        (m.groupID = np.group.id →
          ∃ np2, np.DeleteGroup m = Except.ok (np2, some (Message.deleteGroup m)) ∧
            np2.taskAlive = false ∧ np.Stop = Except.ok np2) ∧
        (m.groupID ≠ np.group.id →
          np.DeleteGroup m = Except.ok (np, some (Message.deleteGroup m)))) := by
  intro ni np m
  constructor
  · intro hrun
    constructor
    · intro heq
      refine ⟨{ ni with stopClosed := true, timer := { ni.timer with active := false }, taskAlive := false }, ?_, rfl, ?_⟩
      · simp [idleBarrier.DeleteGroup, heq, idleBarrier.Stop, hrun, Except.map]
      · simp [idleBarrier.Stop, hrun]
    · intro hne
      simp [idleBarrier.DeleteGroup, hne]
  · intro hrun
    constructor
    · intro heq
      refine ⟨{ np with taskAlive := false, tickerActive := false }, ?_, rfl, ?_⟩
      · simp [periodicBarrier.DeleteGroup, heq, periodicBarrier.Stop, hrun, Except.map]
      · simp [periodicBarrier.Stop, hrun]
    · intro hne
      simp [periodicBarrier.DeleteGroup, hne]

/-- Witness for C7: a freshly built idle emitter for group `g` is stopped by
a deletion of `g` (message forwarded), and is untouched by a deletion of
group `h`. -/
theorem barrier_C7_witness :
    (∃ ni2, (newIdleBarrier "m" { id := "g" } 5).DeleteGroup { groupID := "g" } =
        Except.ok (ni2, some (Message.deleteGroup { groupID := "g" })) ∧
      ni2.taskAlive = false ∧
      (newIdleBarrier "m" { id := "g" } 5).Stop = Except.ok ni2) ∧
    (newIdleBarrier "m" { id := "g" } 5).DeleteGroup { groupID := "h" } =
      Except.ok (newIdleBarrier "m" { id := "g" } 5,
        some (Message.deleteGroup { groupID := "h" })) := by
  constructor
  · exact ((barrier_C7 (newIdleBarrier "m" { id := "g" } 5)
      (newPeriodicBarrier "m" { id := "g" } 5) { groupID := "g" }).1 rfl).1 rfl
  · exact ((barrier_C7 (newIdleBarrier "m" { id := "g" } 5)
      (newPeriodicBarrier "m" { id := "g" } 5) { groupID := "h" }).1 rfl).2 (by decide)

/-- In the interleaving model, a state reached from `emitterProc.start` in
which `Stop()` has returned has no live background goroutine. -/
lemma procReach_task_exited :
    ∀ s : emitterProc, procReach s → s.stopReturned = true → s.taskAlive = false := by
  intro s hreach
  induction hreach with
  | start => intro h; cases h
  | step t e t2 _hr hstep ih =>
      intro h2
      cases hstep with
      | fire ht => exact ih h2
      | recvStop ht hsr => rfl
      | stopCall ht => exact ih h2
      | stopRet ht hta => exact hta

/-- C2: `Stop()` is terminal and blocking — its `wg.Wait` cannot return while
the background goroutine is still alive; once `Stop()` has returned that
remains true forever; and in every reachable state in which `Stop()` has
returned, the goroutine has exited and no further barrier emission step
(`fire`) is possible. -/
theorem barrier_C2 :
    (∀ s s2 : emitterProc, procStep s procEvent.stopRet s2 → s.taskAlive = false) ∧
    (∀ (s : emitterProc) (e : procEvent) (s2 : emitterProc),
      s.stopReturned = true → procStep s e s2 → s2.stopReturned = true) ∧
    (∀ s : emitterProc, procReach s → s.stopReturned = true →
      s.taskAlive = false ∧ ∀ s2, ¬ procStep s procEvent.fire s2) := by
  refine ⟨?_, ?_, ?_⟩
  · intro s s2 h
    cases h with
    | stopRet hreq hta => exact hta
  · intro s e s2 hret h
    cases h with
    | fire ht => exact hret
    | recvStop ht hsr => exact hret
    | stopCall ht => exact hret
    | stopRet ht hta => rfl
  · intro s hreach hret
    have hta := procReach_task_exited s hreach hret
    refine ⟨hta, ?_⟩
    intro s2 hfire
    cases hfire with
    | fire ht =>
        rw [hta] at ht
        exact Bool.noConfusion ht

/-- Witness for C2 at the reachable state where the goroutine received the
stop signal and `Stop()` returned: the task has exited and no emission step
exists. -/
theorem barrier_C2_witness :
    ({ taskAlive := false, stopRequested := true, stopReturned := true } : emitterProc).taskAlive
        = false ∧
      ¬ procStep { taskAlive := false, stopRequested := true, stopReturned := true }
          procEvent.fire emitterProc.start := by
  have h1 : procStep emitterProc.start procEvent.stopCall
      { taskAlive := true, stopRequested := true, stopReturned := false } :=
    procStep.stopCall emitterProc.start rfl
  have h2 : procStep { taskAlive := true, stopRequested := true, stopReturned := false }
      procEvent.recvStop { taskAlive := false, stopRequested := true, stopReturned := false } :=
    procStep.recvStop { taskAlive := true, stopRequested := true, stopReturned := false } rfl rfl
  have h3 : procStep { taskAlive := false, stopRequested := true, stopReturned := false }
      procEvent.stopRet { taskAlive := false, stopRequested := true, stopReturned := true } :=
    procStep.stopRet { taskAlive := false, stopRequested := true, stopReturned := false } rfl rfl
  have hr : procReach { taskAlive := false, stopRequested := true, stopReturned := true } :=
    procReach.step _ _ _ (procReach.step _ _ _ (procReach.step _ _ _ procReach.start h1) h2) h3
  have hmain := barrier_C2.2.2 _ hr rfl
  exact ⟨hmain.1, hmain.2 emitterProc.start⟩

/-- The idle `Point` handler never writes `lastT`. -/
lemma idlePoint_lastT (n : idleBarrier) (m : PointMessage) :
    ((n.Point m).1).lastT = n.lastT := by
  rw [idleBarrier.Point]; split <;> rfl

/-- The idle `BatchPoint` handler never writes `lastT`. -/
lemma idleBatchPoint_lastT (n : idleBarrier) (m : BatchPointMessage) :
    ((n.BatchPoint m).1).lastT = n.lastT := by
  rw [idleBarrier.BatchPoint]; split <;> rfl

/-- The idle `Barrier` handler never writes `lastT`. -/
lemma idleBarrierMsg_lastT (n : idleBarrier) (m : BarrierMessage) :
    ((n.Barrier m).1).lastT = n.lastT := by
  rw [idleBarrier.Barrier]; split <;> rfl

/-- The periodic `Point` handler never writes `lastT`. -/
lemma periodicPoint_lastT (n : periodicBarrier) (m : PointMessage) :
    ((n.Point m).1).lastT = n.lastT := by
  rw [periodicBarrier.Point]; split <;> rfl

/-- The periodic `BatchPoint` handler never writes `lastT`. -/
lemma periodicBatchPoint_lastT (n : periodicBarrier) (m : BatchPointMessage) :
    ((n.BatchPoint m).1).lastT = n.lastT := by
  rw [periodicBarrier.BatchPoint]; split <;> rfl

/-- The periodic `Barrier` handler never writes `lastT`. -/
lemma periodicBarrierMsg_lastT (n : periodicBarrier) (m : BarrierMessage) :
    ((n.Barrier m).1).lastT = n.lastT := by
  rw [periodicBarrier.Barrier]; split <;> rfl

/-- C6: for both emitter variants, the last-barrier timestamp starts at the
zero time on construction, is written only by the barrier-emission action
(which stores the current wall-clock time), and — whenever the wall clock
only moves forward and starts at or after the zero time — is monotonically
non-decreasing across every environment step. -/
theorem barrier_C6 :
    (∀ (nm : String) (g : GroupInfo) (i : Int), (newIdleBarrier nm g i).lastT = 0) ∧
    (∀ (nm : String) (g : GroupInfo) (p : Int), (newPeriodicBarrier nm g p).lastT = 0) ∧
    (∀ (w : idleWorld) (e : worldEvent), e.isEmission = false →
      (w.step e).em.lastT = w.em.lastT) ∧
    (∀ (w : periodicWorld) (e : worldEvent), e.isEmission = false →
      (w.step e).em.lastT = w.em.lastT) ∧
    (∀ (w : idleWorld) (sink : Except String Unit),
      (w.step (worldEvent.timerFire sink)).em.lastT = w.clock) ∧
    (∀ (w : periodicWorld) (sink : Except String Unit),
      (w.step (worldEvent.timerFire sink)).em.lastT = w.clock) ∧
    (∀ (w : idleWorld) (e : worldEvent), w.inv → e.wellTimed →
      w.em.lastT ≤ (w.step e).em.lastT ∧ (w.step e).inv) ∧
    (∀ (w : periodicWorld) (e : worldEvent), w.inv → e.wellTimed →
      w.em.lastT ≤ (w.step e).em.lastT ∧ (w.step e).inv) ∧
    (∀ (nm : String) (g : GroupInfo) (i c0 : Int), 0 ≤ c0 →
      idleWorld.inv { clock := c0, em := newIdleBarrier nm g i }) ∧
    (∀ (nm : String) (g : GroupInfo) (p c0 : Int), 0 ≤ c0 →
      periodicWorld.inv { clock := c0, em := newPeriodicBarrier nm g p }) := by
  refine ⟨fun nm g i => rfl, fun nm g p => rfl, ?_, ?_, fun w sink => rfl, fun w sink => rfl,
    ?_, ?_, ?_, ?_⟩
  · intro w e he
    cases e with
    | tick d => rfl
    | point m => exact idlePoint_lastT w.em m
    | batchPoint m => exact idleBatchPoint_lastT w.em m
    | barrierMsg m => exact idleBarrierMsg_lastT w.em m
    | beginBatch m => rfl
    | endBatch m => rfl
    | timerFire sink => exact absurd he (by simp [worldEvent.isEmission])
  · intro w e he
    cases e with
    | tick d => rfl
    | point m => exact periodicPoint_lastT w.em m
    | batchPoint m => exact periodicBatchPoint_lastT w.em m
    | barrierMsg m => exact periodicBarrierMsg_lastT w.em m
    | beginBatch m => rfl
    | endBatch m => rfl
    | timerFire sink => exact absurd he (by simp [worldEvent.isEmission])
  · intro w e hinv hwt
    obtain ⟨h1, h2⟩ := hinv
    cases e with
    | tick d =>
        rw [worldEvent.wellTimed] at hwt
        exact ⟨le_refl _, h1, le_trans h2 (le_add_of_nonneg_right hwt)⟩
    | point m =>
        refine ⟨le_of_eq ?_, ?_, ?_⟩
        · rw [idleWorld.step, idlePoint_lastT]
        · rw [idleWorld.step, idlePoint_lastT]; exact h1
        · rw [idleWorld.step, idlePoint_lastT]; exact h2
    | batchPoint m =>
        refine ⟨le_of_eq ?_, ?_, ?_⟩
        · rw [idleWorld.step, idleBatchPoint_lastT]
        · rw [idleWorld.step, idleBatchPoint_lastT]; exact h1
        · rw [idleWorld.step, idleBatchPoint_lastT]; exact h2
    | barrierMsg m =>
        refine ⟨le_of_eq ?_, ?_, ?_⟩
        · rw [idleWorld.step, idleBarrierMsg_lastT]
        · rw [idleWorld.step, idleBarrierMsg_lastT]; exact h1
        · rw [idleWorld.step, idleBarrierMsg_lastT]; exact h2
    | beginBatch m => exact ⟨le_refl _, h1, h2⟩
    | endBatch m => exact ⟨le_refl _, h1, h2⟩
    | timerFire sink => exact ⟨h2, le_trans h1 h2, le_refl _⟩
  · intro w e hinv hwt
    obtain ⟨h1, h2⟩ := hinv
    cases e with
    | tick d =>
        rw [worldEvent.wellTimed] at hwt
        exact ⟨le_refl _, h1, le_trans h2 (le_add_of_nonneg_right hwt)⟩
    | point m =>
        refine ⟨le_of_eq ?_, ?_, ?_⟩
        · rw [periodicWorld.step, periodicPoint_lastT]
        · rw [periodicWorld.step, periodicPoint_lastT]; exact h1
        · rw [periodicWorld.step, periodicPoint_lastT]; exact h2
    | batchPoint m =>
        refine ⟨le_of_eq ?_, ?_, ?_⟩
        · rw [periodicWorld.step, periodicBatchPoint_lastT]
        · rw [periodicWorld.step, periodicBatchPoint_lastT]; exact h1
        · rw [periodicWorld.step, periodicBatchPoint_lastT]; exact h2
    | barrierMsg m =>
        refine ⟨le_of_eq ?_, ?_, ?_⟩
        · rw [periodicWorld.step, periodicBarrierMsg_lastT]
        · rw [periodicWorld.step, periodicBarrierMsg_lastT]; exact h1
        · rw [periodicWorld.step, periodicBarrierMsg_lastT]; exact h2
    | beginBatch m => exact ⟨le_refl _, h1, h2⟩
    | endBatch m => exact ⟨le_refl _, h1, h2⟩
    | timerFire sink => exact ⟨h2, le_trans h1 h2, le_refl _⟩
  · intro nm g i c0 hc0
    exact ⟨le_refl 0, hc0⟩
  · intro nm g p c0 hc0
    exact ⟨le_refl 0, hc0⟩

/-- Witness for C6: a concrete idle instance at clock 3 satisfies the
invariant, a clock tick of 2 keeps `lastT` non-decreasing, and a concrete
periodic instance at clock 0 establishes the invariant. -/
theorem barrier_C6_witness :
    (({ clock := 3, em := newIdleBarrier "m" { id := "g" } 5 } : idleWorld).em.lastT ≤
        (idleWorld.step { clock := 3, em := newIdleBarrier "m" { id := "g" } 5 }
          (worldEvent.tick 2)).em.lastT ∧
      (idleWorld.step { clock := 3, em := newIdleBarrier "m" { id := "g" } 5 }
          (worldEvent.tick 2)).inv) ∧
    idleWorld.inv { clock := 7, em := newIdleBarrier "m" { id := "g" } 5 } ∧
    periodicWorld.inv { clock := 0, em := newPeriodicBarrier "m" { id := "g" } 9 } := by
  refine ⟨?_, ?_, ?_⟩
  · exact barrier_C6.2.2.2.2.2.2.1 { clock := 3, em := newIdleBarrier "m" { id := "g" } 5 }
      (worldEvent.tick 2) (by decide) (by decide)
  · exact barrier_C6.2.2.2.2.2.2.2.2.1 "m" { id := "g" } 5 7 (by decide)
  · exact barrier_C6.2.2.2.2.2.2.2.2.2 "m" { id := "g" } 9 0 (by decide)

/-- Scenario for the double-stop bug: configuration with idle 5, period 0. -/
def c3cfg : pipelineBarrierNode := { idle := 5, period := 0 }

/-- Scenario: the node right after construction. -/
def c3node0 : BarrierNode := { b := c3cfg, barrierStopper := [] }

/-- Scenario: the idle emitter created for group `a` on its first point. -/
def c3ib0 : idleBarrier := newIdleBarrier "cpu" { id := "a" } 5

/-- Scenario: the node after `NewGroup` registered group `a`'s stop closure. -/
def c3node1 : BarrierNode :=
  { b := c3cfg, barrierStopper := [("a", emitter.idle c3ib0)] }

/-- Scenario: group `a`'s emitter after its own `DeleteGroup` ran `Stop`
(`stopC` now closed). -/
def c3ib1 : idleBarrier :=
  { c3ib0 with stopClosed := true, timer := { c3ib0.timer with active := false }, taskAlive := false }

/-- Scenario: the node after the deletion of group `a` — the `barrierStopper`
entry still aliases the now-stopped instance. -/
def c3node2 : BarrierNode :=
  { b := c3cfg, barrierStopper := [("a", emitter.idle c3ib1)] }

/-- C3 evaluated at the failing input: an idle-configured node creates a
group, the group is deleted out-of-band (its emitter's `Stop` runs and
closes `stopC`), and node shutdown then invokes the still-registered stop
closure a second time — `close(stopC)` panics with `close of closed
channel` instead of being skipped or tolerated. -/
theorem barrier_C3_panic :
    newBarrierNode c3cfg = Except.ok c3node0 ∧
    c3node0.NewGroup { id := "a" } { name := "cpu" } =
      Except.ok (c3node1, emitter.idle c3ib0) ∧
    c3node1.deliverDeleteGroup { groupID := "a" } = Except.ok c3node2 ∧
    c3node2.stopBarrierEmitter = Except.error "close of closed channel" := by
  refine ⟨rfl, rfl, rfl, rfl⟩

end Kapacitor
